import Mathlib

/-!
Shallow embedding of the rubric scoring engine of the communication-coach
repository (src/backend/scoring.py, src/backend/nlp_utils.py, src/config.py).

Numbers that Python represents as floats are modelled as rationals (ℚ); every
arithmetic operation appearing in the claims is exact well away from floating
rounding, so ℚ is a faithful model for the properties settled here.  External
model calls (spaCy sentence splitting and tokenising, the sentence-transformer
similarity, LanguageTool, the VADER compound score) are parameters of the
embedding, gathered in the `Analyzers` structure: every theorem quantifies over
them, and every counterexample instantiates them concretely.
-/

/-- Non-overlapping left-to-right occurrence counting on character lists,
mirroring Python `str.count`.  Fuel-based structural recursion so that the
kernel can evaluate it; the fuel `s.length + 1` is always sufficient because
each step consumes at least one character of the scanned list. -/
def countOccAux (p : Char) (ps : List Char) : Nat → List Char → Nat
  | 0, _ => 0
  | _ + 1, [] => 0
  | fuel + 1, c :: rest =>
    if (p :: ps).isPrefixOf (c :: rest) then
      1 + countOccAux p ps fuel (rest.drop ps.length)
    else
      countOccAux p ps fuel rest

/-- Python `s.count(pat)`: non-overlapping occurrences of `pat` in `s`.
All call sites in the modelled code use a non-empty pattern. -/
def strCount (s pat : String) : Nat :=
  match pat.data with
  | [] => s.data.length + 1
  | p :: ps => countOccAux p ps (s.data.length + 1) s.data

/-- Python `pat in s` (substring containment). -/
def strContains (s pat : String) : Bool :=
  strCount s pat != 0

/-- Python `s.lower()`: character-wise lowering (all modelled text is ASCII,
where this agrees with Python).  Same definition as `String.toLower`, but
phrased directly on the character list so the kernel can evaluate it. -/
def strToLower (s : String) : String :=
  String.mk (s.data.map Char.toLower)

-- Python str type: Segment records from the ASR contract.
structure Segment where
  start : ℚ
  stop : ℚ     -- field named `end` in the Python dicts; `end` is reserved in Lean
  text : String
deriving DecidableEq, Repr

/-- A grammar Finding, the dict shape built by `nlp_utils.analyze_grammar`. -/
structure Finding where
  msg : String
  offset : Nat
  length : Nat
  replacements : List String
  category : String
deriving DecidableEq, Repr

/-- A feedback event dict as built in `scoring.py`. -/
structure Event where
  time : ℚ
  type : String
  label : String
  msg : String
  segment_text : String
deriving DecidableEq, Repr

/-- The external analyzer handles `nlp_utils` loads at module scope: spaCy
(sentence splitting and tokenising), the sentence-transformer similarity
(the maximum cosine similarity over the sentence/keyword matrix, which is the
only value check_semantic_presence reads from the embedder), the LanguageTool
tier plus regex tier of `analyze_grammar` (its Finding list), and the VADER
compound score in [-1, 1]. -/
structure Analyzers where
  sents : String → List String
  maxSim : List String → List String → ℚ
  grammar : String → List Finding
  compound : String → ℚ
  tokens : String → List String

-- config.py SEMANTIC_THRESHOLD
def SEMANTIC_THRESHOLD : ℚ := 0.45

-- config.py RUBRIC_CONFIG["clarity"]["filler_words"]
def filler_words : List String :=
  ["um", "uh", "like", "actually", "basically",
   "right", "mean", "okay", "hmm", "ah"]

-- config.py RUBRIC_CONFIG["clarity"]["filler_phrases"]
def filler_phrases : List String :=
  ["you know", "sort of", "kind of", "i mean"]

-- config.py RUBRIC_CONFIG["content_criteria"]["optional"]
def optional_criteria : List String :=
  ["ambition", "goal", "dream", "fun fact", "unique", "strength", "achievement", "from"]

-- scoring.py MAX_SCORES (same values as config.py MAX_SCORES)
def MAX_SCORES : List (String × ℚ) :=
  [("content_structure", 40), ("grammar", 20), ("clarity", 15),
   ("confidence", 15), ("flow", 10)]

/-- The scores dict of `calculate_score`, with the five keys of MAX_SCORES. -/
structure ScoreBreakdown where
  content_structure : ℚ
  grammar : ℚ
  clarity : ℚ
  confidence : ℚ
  flow : ℚ
deriving DecidableEq, Repr

/-- Python `sum(scores.values())` over the five-key scores dict. -/
def sumBreakdown (b : ScoreBreakdown) : ℚ :=
  b.content_structure + b.grammar + b.clarity + b.confidence + b.flow

/-- scoring.py `normalize_total`.  Python `int()` on a non-negative float is
truncation towards zero, i.e. the floor. -/
def normalize_total (b : ScoreBreakdown) : ℤ :=
  let raw_sum := sumBreakdown b
  let max_possible := (MAX_SCORES.map (fun kv => kv.2)).sum
  if max_possible = 0 then 0
  else Int.floor (min ((raw_sum / max_possible) * 100) 100)

/-- nlp_utils.check_semantic_presence: dict modelled as an association list in
insertion order.  Splits the transcript into sentences; if there are none,
every category is absent (the embedder, `A.maxSim`, is not consulted on that
branch); otherwise a category is present iff the maximum cosine similarity
between any sentence and any of its keywords exceeds the threshold. -/
def check_semantic_presence (A : Analyzers) (transcript_text : String)
    (criteria : List (String × List String)) : List (String × Bool) :=
  let transcript_sentences := A.sents transcript_text
  if transcript_sentences = [] then
    criteria.map (fun c => (c.1, false))
  else
    criteria.map (fun c => (c.1, SEMANTIC_THRESHOLD < A.maxSim transcript_sentences c.2))

/-- nlp_utils.analyze_sentiment: `(compound + 1) / 2`. -/
def analyze_sentiment (A : Analyzers) (text : String) : ℚ :=
  (A.compound text + 1) / 2

/-- nlp_utils.detect_filler_words.  The found set is modelled as a Finset
(Python builds a `set` and returns it as a list in unspecified order).
Note the phrase tier counts `" phrase "` inside the *unpadded* lowered text. -/
def detect_filler_words (A : Analyzers) (text : String)
    (filler_list : List String) (fillerPhrases : List String) : Nat × Finset String :=
  if text = "" ∨ (filler_list = [] ∧ fillerPhrases = []) then (0, ∅)
  else
    let text_lower := strToLower text
    let tokens := A.tokens text_lower
    let afterSingles : Nat × Finset String :=
      tokens.foldl (fun acc token =>
        if token ∈ filler_list then (acc.1 + 1, insert token acc.2) else acc) (0, ∅)
    fillerPhrases.foldl (fun acc phrase =>
      let phrase_count := strCount text_lower (" " ++ phrase ++ " ")
      if 0 < phrase_count then (acc.1 + phrase_count, insert phrase acc.2) else acc)
      afterSingles

/-! ## SegmentTimeMapper: scoring.py map_errors_to_segments -/

/-- One entry of the cumulative `segment_map` table. -/
structure SegRange where
  start_char : Nat
  end_char : Nat
  start_time : ℚ
  end_time : ℚ
  text : String
deriving DecidableEq, Repr

/-- The first loop of `map_errors_to_segments`: cumulative character ranges,
accumulated without separators. -/
def buildSegmentMapFrom (current_char_index : Nat) : List Segment → List SegRange
  | [] => []
  | seg :: rest =>
    { start_char := current_char_index
      end_char := current_char_index + seg.text.length
      start_time := seg.start
      end_time := seg.stop
      text := seg.text } :: buildSegmentMapFrom (current_char_index + seg.text.length) rest

def buildSegmentMap (segments : List Segment) : List SegRange :=
  buildSegmentMapFrom 0 segments

/-- The inner `for seg in segment_map ... break` of the second loop: the first
range whose window `[start_char, end_char + 5]` contains the offset. -/
def findSegmentFor (err_start : Nat) : List SegRange → Option SegRange
  | [] => none
  | seg :: rest =>
    if seg.start_char ≤ err_start ∧ err_start ≤ seg.end_char + 5 then some seg
    else findSegmentFor err_start rest

/-- The event built for an error matched inside a range.  Nat subtraction is
exactly Python's `max(0, err_start - seg['start_char'])`. -/
def eventForError (err : Finding) (seg : SegRange) : Event :=
  let local_offset : Nat := err.offset - seg.start_char
  let seg_span : Nat := seg.end_char - seg.start_char
  let ratio : ℚ := if 0 < seg_span then min 1 ((local_offset : ℚ) / (seg_span : ℚ)) else 0
  { time := seg.start_time + ratio * (seg.end_time - seg.start_time)
    type := "grammar"
    label := "🔴 Grammar"
    msg := err.msg
    segment_text := seg.text }

/-- scoring.py map_errors_to_segments. -/
def map_errors_to_segments (errors : List Finding) (segments : List Segment) : List Event :=
  let segment_map := buildSegmentMap segments
  errors.foldl (fun mapped_events err =>
    match findSegmentFor err.offset segment_map with
    | some seg => mapped_events ++ [eventForError err seg]
    | none => mapped_events) []

/-! ## RubricScorer: scoring.py calculate_score, decomposed section by section -/

/-- The input dict of `calculate_score` (the ASR output contract). -/
structure AudioAnalysis where
  text : String
  wpm : ℚ
  duration : ℚ
  segments : List Segment
  word_count : Nat
deriving Repr

/-- The ScoreReport dict returned by `calculate_score`.  The `feedback`
per-category strings are pure presentation (float formatting) and are not
modelled; no claim mentions them. -/
structure ScoreReport where
  overall_score : ℤ
  breakdown : ScoreBreakdown
  segments : List Segment
  events : List Event
  text : String
  details_wpm : ℚ
  details_duration : ℚ
  details_errors : List Finding
deriving Repr

-- scoring.py line 86: the enthusiastic salutation phrase list
def enthusiastic_phrases : List String :=
  ["good morning", "good afternoon", "hello everyone", "excited to"]

/-- scoring.py lines 84-89: the salutation component of content_structure. -/
def salutationScore (text : String) : ℚ :=
  let lower_text := strToLower text
  if enthusiastic_phrases.any (fun x => strContains lower_text x) then 5
  else if strContains lower_text "hi" || strContains lower_text "hello" then 2
  else 0

-- scoring.py lines 91-95
def semantic_buckets : List (String × List String) :=
  [("Mandatory_Identity", ["my name is", "I am years old", "class", "student"]),
   ("Mandatory_Family", ["family", "parents", "mother", "father"]),
   ("Mandatory_Hobbies", ["hobby", "playing", "reading", "enjoy"])]

def mandatoryResults (A : Analyzers) (text : String) : List (String × Bool) :=
  check_semantic_presence A text semantic_buckets

/-- Python `sum(semantic_results.values())` over booleans: the number of
buckets present. -/
def bucketsFound (results : List (String × Bool)) : Nat :=
  (results.filter (fun r => r.2)).length

/-- scoring.py line 98: `(buckets_found / len(semantic_buckets)) * 20`. -/
def mandatoryScoreOf (A : Analyzers) (text : String) : ℚ :=
  ((bucketsFound (mandatoryResults A text) : ℚ) / (semantic_buckets.length : ℚ)) * 20

/-- Python dict indexing `opt_results["Optional_Details"]`. -/
def lookupBool (results : List (String × Bool)) (key : String) : Bool :=
  (results.lookup key).getD false

def optPresent (A : Analyzers) (text : String) : Bool :=
  lookupBool (check_semantic_presence A text [("Optional_Details", optional_criteria)])
    "Optional_Details"

/-- scoring.py line 102. -/
def optionalScoreOf (A : Analyzers) (text : String) : ℚ :=
  if optPresent A text then 10 else 0

/-- scoring.py line 104, the structural-flow bonus inside content_structure. -/
def structFlowBonus (A : Analyzers) (text : String) : ℚ :=
  if 0 < salutationScore text ∧ 2 ≤ bucketsFound (mandatoryResults A text) then 5 else 0

/-- scoring.py line 105. -/
def contentStructureScore (A : Analyzers) (text : String) : ℚ :=
  salutationScore text + mandatoryScoreOf A text + optionalScoreOf A text + structFlowBonus A text

/-- scoring.py lines 108-114, with the band bounds of config.py speech_rate. -/
def flowScore (wpm : ℚ) : ℚ :=
  if 111 ≤ wpm ∧ wpm ≤ 140 then 10
  else if (141 ≤ wpm ∧ wpm ≤ 160) ∨ (81 ≤ wpm ∧ wpm ≤ 110) then 6
  else 2

/-- scoring.py lines 120-122: the grammar band on errors per 100 words. -/
def grammarScore (errors_per_100 : ℚ) : ℚ :=
  if errors_per_100 < 2 then 20
  else if errors_per_100 < 5 then 15
  else 10

/-- scoring.py line 119. -/
def errorsPer100 (A : Analyzers) (text : String) (word_count : Nat) : ℚ :=
  (((A.grammar text).length : ℚ) / (word_count : ℚ)) * 100

/-- scoring.py lines 162-165: the clarity band on the filler rate. -/
def clarityScoreOfRate (filler_rate : ℚ) : ℚ :=
  if filler_rate < 3 then 15
  else if filler_rate < 6 then 12
  else if filler_rate < 10 then 9
  else 3

/-- scoring.py lines 170-173: the confidence band on positivity. -/
def confidenceScore (positivity : ℚ) : ℚ :=
  if 0.9 < positivity then 15
  else if 0.7 < positivity then 12
  else if 0.5 < positivity then 9
  else 6

/-- The body of the per-segment filler loop for one vocabulary list
(scoring.py lines 136-146 for words, 149-159 for phrases): accumulates the
occurrence count and one event per (segment, filler form) hit, at the
segment's start time.  The Python message wraps the form in single quotes;
the quotes are immaterial here. -/
def scanFillerItems (padded : String) (seg : Segment) (msgHead : String)
    (items : List String) (acc : Nat × List Event) : Nat × List Event :=
  items.foldl (fun acc f =>
    let pat := " " ++ f ++ " "
    if strContains padded pat then
      (acc.1 + strCount padded pat,
       acc.2 ++ [{ time := seg.start
                   type := "clarity"
                   label := "⚠️ Clarity"
                   msg := msgHead ++ f
                   segment_text := seg.text }])
    else acc) acc

/-- scoring.py lines 129-159: the whole per-segment filler scan.  Note the
per-segment text is space-padded before matching (unlike
`detect_filler_words`). -/
def fillerScan (segments : List Segment) : Nat × List Event :=
  segments.foldl (fun acc seg =>
    let seg_text_lower := " " ++ strToLower seg.text ++ " "
    let afterWords := scanFillerItems seg_text_lower seg "Filler detected: " filler_words acc
    scanFillerItems seg_text_lower seg "Filler phrase: " filler_phrases afterWords)
    (0, [])

/-- scoring.py line 161. -/
def fillerRate (segments : List Segment) (word_count : Nat) : ℚ :=
  (((fillerScan segments).1 : ℚ) / (word_count : ℚ)) * 100

/-- The five-category scores dict of the non-degenerate branch. -/
def scoreBreakdownOf (A : Analyzers) (inp : AudioAnalysis) : ScoreBreakdown :=
  { content_structure := contentStructureScore A inp.text
    grammar := grammarScore (errorsPer100 A inp.text inp.word_count)
    clarity := clarityScoreOfRate (fillerRate inp.segments inp.word_count)
    confidence := confidenceScore (analyze_sentiment A inp.text)
    flow := flowScore inp.wpm }

/-- Replace every non-overlapping occurrence of a pattern, mirroring Python
`str.replace` (used for `bucket.replace("Mandatory_", "")`). Fuel-based for
kernel reducibility, as in `countOccAux`. -/
def replaceAllAux (p : Char) (ps : List Char) (rep : List Char) : Nat → List Char → List Char
  | 0, l => l
  | _ + 1, [] => []
  | fuel + 1, c :: rest =>
    if (p :: ps).isPrefixOf (c :: rest) then
      rep ++ replaceAllAux p ps rep fuel (rest.drop ps.length)
    else
      c :: replaceAllAux p ps rep fuel rest

def strReplace (s pat rep : String) : String :=
  match pat.data with
  | [] => s
  | p :: ps => String.mk (replaceAllAux p ps rep.data (s.data.length + 1) s.data)

/-- scoring.py lines 181-191: one missing-content event per mandatory bucket
not found, each anchored at 0.5 s.  The Python message wraps the bucket name
in a contraction; the wording is immaterial here. -/
def missingContentEvents (A : Analyzers) (text : String) : List Event :=
  if mandatoryScoreOf A text < 20 then
    (mandatoryResults A text).foldl (fun acc r =>
      if r.2 then acc
      else acc ++ [{ time := 0.5
                     type := "content"
                     label := "⚠️ Missing Content"
                     msg := "You did not mention your " ++ strReplace r.1 "Mandatory_" "" ++ "."
                     segment_text := "Structure Check" }]) []
  else []

/-- scoring.py lines 193-200. -/
def suggestionEvents (A : Analyzers) (text : String) : List Event :=
  if optionalScoreOf A text = 0 then
    [{ time := 1
       type := "content"
       label := "💡 Suggestion"
       msg := "Try adding a Fun Fact or Ambition."
       segment_text := "Content Tip" }]
  else []

/-- scoring.py lines 203-211. -/
def paceEvents (inp : AudioAnalysis) : List Event :=
  if flowScore inp.wpm < 10 then
    [{ time := inp.duration - 1
       type := "flow"
       label := "⚠️ Pace"
       msg := (if 140 < inp.wpm then "Speaking too fast!" else "Speaking a bit slow.")
       segment_text := "Flow Analysis" }]
  else []

/-- scoring.py lines 213-220. -/
def toneEvents (A : Analyzers) (inp : AudioAnalysis) : List Event :=
  if confidenceScore (analyze_sentiment A inp.text) < 12 then
    [{ time := inp.duration - 0.5
       type := "confidence"
       label := "⚠️ Tone"
       msg := "Tone sounded flat. Be more enthusiastic!"
       segment_text := "Confidence Analysis" }]
  else []

/-- The comparison used by `all_events.sort(key=lambda x: x['time'])`. -/
def eventLe (a b : Event) : Prop := a.time ≤ b.time

instance instDecEventLe : DecidableRel eventLe :=
  fun a b => inferInstanceAs (Decidable (a.time ≤ b.time))

/-- scoring.py line 222: sort the events by time. -/
def sortEvents (events : List Event) : List Event :=
  List.insertionSort eventLe events

/-- The `all_events` list of scoring.py lines 177-222, in construction order,
then sorted by time. -/
def eventsOf (A : Analyzers) (inp : AudioAnalysis) : List Event :=
  sortEvents
    (map_errors_to_segments (A.grammar inp.text) inp.segments
      ++ (fillerScan inp.segments).2
      ++ missingContentEvents A inp.text
      ++ suggestionEvents A inp.text
      ++ paceEvents inp
      ++ toneEvents A inp)

/-- scoring.py calculate_score.  The `word_count == 0` branch (lines 68-77)
returns the all-zero report with an empty segments list; the main branch fuses
the five category scores and the synthesized events. -/
def calculate_score (A : Analyzers) (inp : AudioAnalysis) : ScoreReport :=
  if inp.word_count = 0 then
    { overall_score := 0
      breakdown := { content_structure := 0, grammar := 0, clarity := 0,
                     confidence := 0, flow := 0 }
      segments := []
      events := []
      text := inp.text
      details_wpm := 0
      details_duration := 0
      details_errors := [] }
  else
    { overall_score := normalize_total (scoreBreakdownOf A inp)
      breakdown := scoreBreakdownOf A inp
      segments := inp.segments
      events := eventsOf A inp
      text := inp.text
      details_wpm := inp.wpm
      details_duration := inp.duration
      details_errors := (A.grammar inp.text).take 5 }


/-- The spec's "an enthusiastic/greeting phrase is present": one of the four
enthusiastic phrases occurs as a substring of the lowered text. -/
def enthusiasticPresent (t : String) : Prop :=
  ∃ p ∈ enthusiastic_phrases, strContains (strToLower t) p = true

/-- The spec's "a bare greeting is present": "hi" or "hello" occurs as a
substring of the lowered text (any substring, e.g. inside another word,
exactly as the code tests). -/
def bareGreetingPresent (t : String) : Prop :=
  strContains (strToLower t) "hi" = true ∨ strContains (strToLower t) "hello" = true


/-! ## Concrete analyzer instantiations and inputs used in witnesses and
counterexamples -/

/-- A trivial analyzer assignment: no sentences, no findings, neutral
sentiment, no tokens. -/
def constAnalyzers : Analyzers :=
  { sents := fun _ => []
    maxSim := fun _ _ => 0
    grammar := fun _ => []
    compound := fun _ => 0
    tokens := fun _ => [] }

/-- An analyzer assignment under which exactly the Mandatory_Family bucket is
semantically present (similarity 1 for its keyword list, 0 elsewhere), with no
grammar findings and fully negative sentiment. -/
def oneBucketAnalyzers : Analyzers :=
  { sents := fun _ => ["s"]
    maxSim := fun _ kws => if kws = ["family", "parents", "mother", "father"] then 1 else 0
    grammar := fun _ => []
    compound := fun _ => -1
    tokens := fun _ => [] }

/-- A four-word submission with no segments, scored under
`oneBucketAnalyzers`: its content_structure score is the fractional 20/3. -/
def oneBucketInput : AudioAnalysis :=
  { text := "t", wpm := 50, duration := 10, segments := [], word_count := 4 }

/-- An input with `word_count = 0` but a non-empty segment list, as the
tolerant ASR response parser can produce (segments present, empty text). -/
def emptyWordsInput : AudioAnalysis :=
  { text := "", wpm := 0, duration := 0,
    segments := [{ start := 0, stop := 1, text := "hi" }], word_count := 0 }

/-- Two time-disjoint segments: the second starts at 5 s although the first
ends at 1 s. -/
def twoSegs : List Segment :=
  [{ start := 0, stop := 1, text := "ab" },
   { start := 5, stop := 6, text := "cd" }]

/-- A finding whose offset 2 is exactly the second segment's `start_char`. -/
def findingAtSecondStart : Finding :=
  { msg := "m", offset := 2, length := 1, replacements := [], category := "g" }

/-- A finding whose offset 3 is exactly the second segment's `end_char - 1`. -/
def findingAtSecondLast : Finding :=
  { msg := "m", offset := 3, length := 1, replacements := [], category := "g" }

/-- A one-segment list used in witnesses. -/
def oneSeg : Segment := { start := 0, stop := 1, text := "ab" }

def findingAtZero : Finding :=
  { msg := "m", offset := 0, length := 1, replacements := [], category := "g" }

def findingAtLast : Finding :=
  { msg := "m", offset := 1, length := 1, replacements := [], category := "g" }

/-! ## General lemmas about the embedded code -/

lemma grammarScore_mem (r : ℚ) :
    grammarScore r = 20 ∨ grammarScore r = 15 ∨ grammarScore r = 10 := by
  unfold grammarScore
  split_ifs <;> simp

lemma clarityScoreOfRate_mem (r : ℚ) :
    clarityScoreOfRate r = 15 ∨ clarityScoreOfRate r = 12 ∨
      clarityScoreOfRate r = 9 ∨ clarityScoreOfRate r = 3 := by
  unfold clarityScoreOfRate
  split_ifs <;> simp

lemma confidenceScore_mem (p : ℚ) :
    confidenceScore p = 15 ∨ confidenceScore p = 12 ∨
      confidenceScore p = 9 ∨ confidenceScore p = 6 := by
  unfold confidenceScore
  split_ifs <;> simp

lemma flowScore_mem (w : ℚ) :
    flowScore w = 10 ∨ flowScore w = 6 ∨ flowScore w = 2 := by
  unfold flowScore
  split_ifs <;> simp

lemma salutationScore_mem (t : String) :
    salutationScore t = 5 ∨ salutationScore t = 2 ∨ salutationScore t = 0 := by
  unfold salutationScore
  dsimp only
  split_ifs <;> simp

lemma grammarScore_ge (r : ℚ) : 10 ≤ grammarScore r := by
  rcases grammarScore_mem r with h | h | h <;> rw [h] <;> norm_num

lemma grammarScore_le (r : ℚ) : grammarScore r ≤ 20 := by
  rcases grammarScore_mem r with h | h | h <;> rw [h] <;> norm_num

lemma clarityScoreOfRate_ge (r : ℚ) : 3 ≤ clarityScoreOfRate r := by
  rcases clarityScoreOfRate_mem r with h | h | h | h <;> rw [h] <;> norm_num

lemma clarityScoreOfRate_le (r : ℚ) : clarityScoreOfRate r ≤ 15 := by
  rcases clarityScoreOfRate_mem r with h | h | h | h <;> rw [h] <;> norm_num

lemma confidenceScore_ge (p : ℚ) : 6 ≤ confidenceScore p := by
  rcases confidenceScore_mem p with h | h | h | h <;> rw [h] <;> norm_num

lemma confidenceScore_le (p : ℚ) : confidenceScore p ≤ 15 := by
  rcases confidenceScore_mem p with h | h | h | h <;> rw [h] <;> norm_num

lemma flowScore_ge (w : ℚ) : 2 ≤ flowScore w := by
  rcases flowScore_mem w with h | h | h <;> rw [h] <;> norm_num

lemma flowScore_le (w : ℚ) : flowScore w ≤ 10 := by
  rcases flowScore_mem w with h | h | h <;> rw [h] <;> norm_num

lemma check_semantic_presence_length (A : Analyzers) (t : String)
    (criteria : List (String × List String)) :
    (check_semantic_presence A t criteria).length = criteria.length := by
  unfold check_semantic_presence
  dsimp only
  split <;> simp

lemma bucketsFound_le_length (rs : List (String × Bool)) :
    bucketsFound rs ≤ rs.length :=
  List.length_filter_le _ _

lemma bucketsFound_mandatory_le (A : Analyzers) (t : String) :
    bucketsFound (mandatoryResults A t) ≤ 3 := by
  have h := bucketsFound_le_length (mandatoryResults A t)
  have h2 : (mandatoryResults A t).length = 3 := by
    unfold mandatoryResults
    rw [check_semantic_presence_length]
    rfl
  omega

lemma mandatoryScoreOf_nonneg (A : Analyzers) (t : String) :
    0 ≤ mandatoryScoreOf A t := by
  unfold mandatoryScoreOf
  positivity

lemma mandatoryScoreOf_le (A : Analyzers) (t : String) :
    mandatoryScoreOf A t ≤ 20 := by
  unfold mandatoryScoreOf
  have h := bucketsFound_mandatory_le A t
  have hc : (bucketsFound (mandatoryResults A t) : ℚ) ≤ 3 := by exact_mod_cast h
  have hlen : ((semantic_buckets.length : ℚ)) = 3 := by norm_num [semantic_buckets]
  rw [hlen]
  nlinarith

lemma salutationScore_nonneg (t : String) : 0 ≤ salutationScore t := by
  rcases salutationScore_mem t with h | h | h <;> rw [h] <;> norm_num

lemma salutationScore_le (t : String) : salutationScore t ≤ 5 := by
  rcases salutationScore_mem t with h | h | h <;> rw [h] <;> norm_num

lemma optionalScoreOf_mem (A : Analyzers) (t : String) :
    optionalScoreOf A t = 10 ∨ optionalScoreOf A t = 0 := by
  unfold optionalScoreOf
  split_ifs <;> simp

lemma structFlowBonus_mem (A : Analyzers) (t : String) :
    structFlowBonus A t = 5 ∨ structFlowBonus A t = 0 := by
  unfold structFlowBonus
  split_ifs <;> simp

lemma contentStructureScore_nonneg (A : Analyzers) (t : String) :
    0 ≤ contentStructureScore A t := by
  unfold contentStructureScore
  have h1 := salutationScore_nonneg t
  have h2 := mandatoryScoreOf_nonneg A t
  rcases optionalScoreOf_mem A t with h3 | h3 <;>
    rcases structFlowBonus_mem A t with h4 | h4 <;>
      rw [h3, h4] <;> linarith

lemma contentStructureScore_le (A : Analyzers) (t : String) :
    contentStructureScore A t ≤ 40 := by
  unfold contentStructureScore
  have h1 := salutationScore_le t
  have h2 := mandatoryScoreOf_le A t
  rcases optionalScoreOf_mem A t with h3 | h3 <;>
    rcases structFlowBonus_mem A t with h4 | h4 <;>
      rw [h3, h4] <;> linarith

/-- `normalize_total` in closed form: the category maxima sum to 100, so the
guard is dead and the normalization factor cancels. -/
lemma normalize_total_eq (b : ScoreBreakdown) :
    normalize_total b = Int.floor (min (sumBreakdown b) 100) := by
  unfold normalize_total MAX_SCORES
  norm_num

lemma findSegmentFor_nil (off : Nat) : findSegmentFor off [] = none := rfl

/-- With no segments the mapper drops every finding. -/
lemma map_errors_to_segments_nil (errors : List Finding) :
    map_errors_to_segments errors [] = [] := by
  unfold map_errors_to_segments buildSegmentMap buildSegmentMapFrom
  induction errors with
  | nil => rfl
  | cons e es ih =>
    simp only [List.foldl_cons, findSegmentFor_nil] at ih ⊢
    exact ih

lemma fillerScan_nil : fillerScan [] = (0, []) := rfl

lemma sortEvents_mem (e : Event) (l : List Event) :
    e ∈ sortEvents l ↔ e ∈ l :=
  (List.perm_insertionSort eventLe l).mem_iff

lemma missingContentEvents_type (A : Analyzers) (t : String) (e : Event)
    (he : e ∈ missingContentEvents A t) : e.type = "content" := by
  unfold missingContentEvents at he
  by_cases h : mandatoryScoreOf A t < 20
  · rw [if_pos h] at he
    revert he
    generalize mandatoryResults A t = rs
    have key : ∀ (rs : List (String × Bool)) (acc : List Event),
        (∀ x ∈ acc, x.type = "content") →
        e ∈ rs.foldl (fun acc r =>
          if r.2 then acc
          else acc ++ [{ time := 0.5, type := "content", label := "⚠️ Missing Content",
                         msg := "You did not mention your " ++ strReplace r.1 "Mandatory_" "" ++ ".",
                         segment_text := "Structure Check" }]) acc →
        e.type = "content" := by
      intro rs
      induction rs with
      | nil => intro acc hacc he; exact hacc e he
      | cons r rest ih =>
        intro acc hacc he
        refine ih _ ?_ he
        intro x hx
        dsimp only at hx
        split_ifs at hx with hr
        · exact hacc x hx
        · rcases List.mem_append.mp hx with h1 | h1
          · exact hacc x h1
          · simp at h1
            rw [h1]
    intro he
    exact key rs [] (by intro x hx; simp at hx) he
  · rw [if_neg h] at he
    simp at he

lemma suggestionEvents_type (A : Analyzers) (t : String) (e : Event)
    (he : e ∈ suggestionEvents A t) : e.type = "content" := by
  unfold suggestionEvents at he
  split_ifs at he <;> simp_all

lemma paceEvents_type (inp : AudioAnalysis) (e : Event)
    (he : e ∈ paceEvents inp) : e.type = "flow" := by
  unfold paceEvents at he
  split_ifs at he <;> simp_all

lemma toneEvents_type (A : Analyzers) (inp : AudioAnalysis) (e : Event)
    (he : e ∈ toneEvents A inp) : e.type = "confidence" := by
  unfold toneEvents at he
  split_ifs at he <;> simp_all

/-- Projections of `calculate_score` in the non-degenerate branch. -/
lemma calculate_score_pos (A : Analyzers) (inp : AudioAnalysis)
    (h : inp.word_count ≠ 0) :
    calculate_score A inp =
      { overall_score := normalize_total (scoreBreakdownOf A inp)
        breakdown := scoreBreakdownOf A inp
        segments := inp.segments
        events := eventsOf A inp
        text := inp.text
        details_wpm := inp.wpm
        details_duration := inp.duration
        details_errors := (A.grammar inp.text).take 5 } := by
  unfold calculate_score
  rw [if_neg h]

/-- Closed form of the single-word loop of `detect_filler_words`. -/
lemma singlesFold_eq (wl : List String) (tokens : List String) (acc : Nat × Finset String) :
    tokens.foldl (fun acc token =>
        if token ∈ wl then (acc.1 + 1, insert token acc.2) else acc) acc =
      (acc.1 + tokens.countP (fun t => decide (t ∈ wl)),
       acc.2 ∪ (tokens.filter (fun t => decide (t ∈ wl))).toFinset) := by
  induction tokens generalizing acc with
  | nil => simp
  | cons t ts ih =>
    rw [List.foldl_cons]
    by_cases h : t ∈ wl
    · rw [if_pos h, ih, Prod.mk.injEq]
      constructor
      · simp [List.countP_cons, h]
        omega
      · ext x
        simp [List.filter_cons, h, Finset.mem_insert]
    · rw [if_neg h, ih, Prod.mk.injEq]
      constructor
      · simp [List.countP_cons, h]
      · ext x
        simp [List.filter_cons, h]

/-- Closed form of the phrase loop of `detect_filler_words`: each phrase adds
its (possibly zero) padded-pattern count in the lowered text, and is recorded
as found iff that count is positive. -/
lemma phrasesFold_eq (tl : String) (pl : List String) (acc : Nat × Finset String) :
    pl.foldl (fun acc phrase =>
        let phrase_count := strCount tl (" " ++ phrase ++ " ")
        if 0 < phrase_count then (acc.1 + phrase_count, insert phrase acc.2) else acc) acc =
      (acc.1 + (pl.map (fun p => strCount tl (" " ++ p ++ " "))).sum,
       acc.2 ∪ (pl.filter (fun p => decide (0 < strCount tl (" " ++ p ++ " ")))).toFinset) := by
  induction pl generalizing acc with
  | nil => simp
  | cons p ps ih =>
    rw [List.foldl_cons]
    dsimp only
    by_cases h : 0 < strCount tl (" " ++ p ++ " ")
    · rw [if_pos h, ih, Prod.mk.injEq]
      constructor
      · simp [List.map_cons, List.sum_cons]
        omega
      · ext x
        simp [List.filter_cons, h, Finset.mem_insert]
    · have hz : strCount tl (" " ++ p ++ " ") = 0 := by omega
      rw [if_neg h, ih, Prod.mk.injEq]
      constructor
      · simp [List.map_cons, List.sum_cons, hz]
      · ext x
        simp [List.filter_cons, h]

lemma oneBucket_mandatoryResults :
    mandatoryResults oneBucketAnalyzers "t" =
      [("Mandatory_Identity", false), ("Mandatory_Family", true), ("Mandatory_Hobbies", false)] := by
  unfold mandatoryResults check_semantic_presence
  simp [oneBucketAnalyzers, semantic_buckets, SEMANTIC_THRESHOLD]
  norm_num

lemma oneBucket_optPresent : optPresent oneBucketAnalyzers "t" = false := by
  unfold optPresent check_semantic_presence
  simp [oneBucketAnalyzers, optional_criteria, SEMANTIC_THRESHOLD, lookupBool]
  norm_num

lemma oneBucket_content : contentStructureScore oneBucketAnalyzers "t" = 20 / 3 := by
  have hsal : salutationScore "t" = 0 := by decide
  unfold contentStructureScore mandatoryScoreOf optionalScoreOf structFlowBonus optPresent
  rw [oneBucket_mandatoryResults, hsal]
  rw [show bucketsFound
      [("Mandatory_Identity", false), ("Mandatory_Family", true), ("Mandatory_Hobbies", false)]
      = 1 from rfl]
  have hopt := oneBucket_optPresent
  unfold optPresent at hopt
  rw [hopt]
  norm_num [semantic_buckets]

lemma oneBucket_breakdown :
    scoreBreakdownOf oneBucketAnalyzers oneBucketInput =
      { content_structure := 20 / 3, grammar := 20, clarity := 15,
        confidence := 6, flow := 2 } := by
  unfold scoreBreakdownOf
  rw [ScoreBreakdown.mk.injEq]
  refine ⟨oneBucket_content, ?_, ?_, ?_, ?_⟩
  · show grammarScore (errorsPer100 oneBucketAnalyzers "t" 4) = 20
    norm_num [grammarScore, errorsPer100, oneBucketAnalyzers]
  · show clarityScoreOfRate (fillerRate [] 4) = 15
    norm_num [clarityScoreOfRate, fillerRate, fillerScan]
  · show confidenceScore (analyze_sentiment oneBucketAnalyzers "t") = 6
    norm_num [confidenceScore, analyze_sentiment, oneBucketAnalyzers]
  · show flowScore 50 = 2
    norm_num [flowScore]

/-! ## Claims -/

/-- C1 (amended): for every scoring call with word_count > 0, the returned
overall_score is an integer in [0, 100] and equals
`floor(min(100, sum(breakdown.values()) / sum(category maxima) * 100))` — the
floor (Python `int()` truncation), not `round` as the claim states. -/
theorem C1_overall_score_floor (A : Analyzers) (inp : AudioAnalysis)
    (h : inp.word_count ≠ 0) :
    0 ≤ (calculate_score A inp).overall_score ∧
      (calculate_score A inp).overall_score ≤ 100 ∧
      (calculate_score A inp).overall_score =
        Int.floor (min (100 : ℚ)
          (sumBreakdown (calculate_score A inp).breakdown / 100 * 100)) := by
  rw [calculate_score_pos A inp h]
  dsimp only
  rw [normalize_total_eq]
  have hsum0 : 0 ≤ sumBreakdown (scoreBreakdownOf A inp) := by
    unfold sumBreakdown scoreBreakdownOf
    have h1 := contentStructureScore_nonneg A inp.text
    have h2 := grammarScore_ge (errorsPer100 A inp.text inp.word_count)
    have h3 := clarityScoreOfRate_ge (fillerRate inp.segments inp.word_count)
    have h4 := confidenceScore_ge (analyze_sentiment A inp.text)
    have h5 := flowScore_ge inp.wpm
    dsimp only
    linarith
  refine ⟨?_, ?_, ?_⟩
  · rw [Int.le_floor]
    push_cast
    exact le_min hsum0 (by norm_num)
  · calc Int.floor (min (sumBreakdown (scoreBreakdownOf A inp)) 100)
        ≤ Int.floor ((100 : ℚ)) := Int.floor_le_floor (min_le_right _ _)
      _ = 100 := by norm_num
  · rw [div_mul_cancel₀ _ (show (100 : ℚ) ≠ 0 by norm_num), min_comm]

/-- C1 witness: the floor identity and bounds at a concrete scoring call. -/
theorem C1_overall_score_floor_witness :
    (calculate_score oneBucketAnalyzers oneBucketInput).overall_score =
      Int.floor (min (100 : ℚ)
        (sumBreakdown (calculate_score oneBucketAnalyzers oneBucketInput).breakdown
          / 100 * 100)) :=
  (C1_overall_score_floor oneBucketAnalyzers oneBucketInput (by decide)).2.2

/-- C1 counterexample: at this concrete scoring call the breakdown sums to
149/3, so `int(min(...))` (what the code computes) gives 49 while
`round(min(...))` (what the claim states) gives 50. -/
theorem C1_round_counterexample :
    (calculate_score oneBucketAnalyzers oneBucketInput).overall_score = 49 ∧
      round (min (100 : ℚ)
        (sumBreakdown (calculate_score oneBucketAnalyzers oneBucketInput).breakdown
          / 100 * 100)) = 50 := by
  rw [calculate_score_pos oneBucketAnalyzers oneBucketInput (by decide)]
  dsimp only
  rw [oneBucket_breakdown, normalize_total_eq]
  constructor
  · norm_num [sumBreakdown]
  · rw [round_eq]
    norm_num [sumBreakdown]

/-- C2 (amended): for every input with word_count = 0 the scorer returns, for
every analyzer assignment, the fixed all-zero report: overall 0, all-zero
breakdown, no events, the input text echoed — but the `segments` field is the
empty list, NOT the input segments echoed back as the claim states. -/
theorem C2_zero_words_report (A : Analyzers) (inp : AudioAnalysis)
    (h : inp.word_count = 0) :
    calculate_score A inp =
      { overall_score := 0
        breakdown := { content_structure := 0, grammar := 0, clarity := 0,
                       confidence := 0, flow := 0 }
        segments := []
        events := []
        text := inp.text
        details_wpm := 0
        details_duration := 0
        details_errors := [] } := by
  unfold calculate_score
  rw [if_pos h]

/-- C2 witness: the amended report shape at a concrete degenerate input. -/
theorem C2_zero_words_report_witness :
    calculate_score constAnalyzers emptyWordsInput =
      { overall_score := 0
        breakdown := { content_structure := 0, grammar := 0, clarity := 0,
                       confidence := 0, flow := 0 }
        segments := []
        events := []
        text := ""
        details_wpm := 0
        details_duration := 0
        details_errors := [] } :=
  C2_zero_words_report constAnalyzers emptyWordsInput rfl

/-- C2 counterexample: an input with word_count = 0 but a non-empty segment
list (as the tolerant ASR parser can produce) — the returned `segments` is
`[]`, not the input's segment list, so the segments are not echoed back. -/
theorem C2_segments_counterexample :
    (calculate_score constAnalyzers emptyWordsInput).segments = [] ∧
      emptyWordsInput.segments ≠ [] := by
  constructor
  · rfl
  · decide

/-- C3 (amended): the round-trip property holds for the FIRST segment: a
Finding at offset 0 (the first segment's start_char) is mapped to exactly the
first segment's start time, and a Finding at the first segment's
`end_char - 1` is mapped to a time within the first segment's [start, stop]
range.  For any later segment the first-fit match with the 5-character slack
window attributes such offsets to an earlier segment (the previous segment's
window always contains the next segment's start_char), so the property as
claimed fails there — see the counterexample. -/
theorem C3_first_segment_roundtrip (s0 : Segment) (rest : List Segment)
    (f : Finding) (hord : s0.start ≤ s0.stop) :
    (f.offset = 0 →
      (map_errors_to_segments [f] (s0 :: rest)).map (fun e => e.time) = [s0.start]) ∧
    (1 ≤ s0.text.length → f.offset = s0.text.length - 1 →
      ∃ t : ℚ, (map_errors_to_segments [f] (s0 :: rest)).map (fun e => e.time) = [t] ∧
        s0.start ≤ t ∧ t ≤ s0.stop) := by
  have hmap : buildSegmentMap (s0 :: rest) =
      { start_char := 0, end_char := 0 + s0.text.length, start_time := s0.start,
        end_time := s0.stop, text := s0.text } :: buildSegmentMapFrom (0 + s0.text.length) rest :=
    rfl
  constructor
  · intro h0
    have hfind : findSegmentFor f.offset (buildSegmentMap (s0 :: rest)) =
        some { start_char := 0, end_char := 0 + s0.text.length, start_time := s0.start,
               end_time := s0.stop, text := s0.text } := by
      rw [hmap]
      unfold findSegmentFor
      rw [if_pos (by dsimp only; omega)]
    unfold map_errors_to_segments
    rw [List.foldl_cons]
    rw [hfind]
    simp only [List.foldl_nil, List.nil_append, List.map_cons, List.map_nil]
    unfold eventForError
    dsimp only
    rw [h0]
    congr 1
    have hzero : ((0 - 0 : ℕ) : ℚ) = 0 := by norm_num
    split_ifs with hspan
    · rw [hzero, zero_div]
      simp
    · simp
  · intro hlen hoff
    have hfind : findSegmentFor f.offset (buildSegmentMap (s0 :: rest)) =
        some { start_char := 0, end_char := 0 + s0.text.length, start_time := s0.start,
               end_time := s0.stop, text := s0.text } := by
      rw [hmap]
      unfold findSegmentFor
      rw [if_pos (by dsimp only; omega)]
    unfold map_errors_to_segments
    rw [List.foldl_cons]
    rw [hfind]
    simp only [List.foldl_nil, List.nil_append, List.map_cons, List.map_nil]
    unfold eventForError
    dsimp only
    refine ⟨_, rfl, ?_, ?_⟩
    all_goals {
      rw [if_pos (show 0 < 0 + s0.text.length - 0 by omega)]
      have hq0 : (0 : ℚ) ≤ ((f.offset - 0 : ℕ) : ℚ) / ((0 + s0.text.length - 0 : ℕ) : ℚ) := by
        positivity
      have hr0 : (0 : ℚ) ≤ min 1 (((f.offset - 0 : ℕ) : ℚ) / ((0 + s0.text.length - 0 : ℕ) : ℚ)) :=
        le_min (by norm_num) hq0
      have hr1 : min 1 (((f.offset - 0 : ℕ) : ℚ) / ((0 + s0.text.length - 0 : ℕ) : ℚ)) ≤ 1 :=
        min_le_left _ _
      nlinarith [mul_nonneg hr0 (sub_nonneg.mpr hord)]
    }

/-- C3 witness: a finding at offset 0 of a one-segment list maps exactly to
that segment's start. -/
theorem C3_first_segment_roundtrip_witness :
    (map_errors_to_segments [findingAtZero] [oneSeg]).map (fun e => e.time) = [oneSeg.start] :=
  (C3_first_segment_roundtrip oneSeg [] findingAtZero (by decide)).1 rfl

/-- C3 counterexample: segments "ab" at [0,1]s and "cd" at [5,6]s.  The second
segment's start_char is 2 and its end_char - 1 is 3, but a finding at offset 2
is mapped to time 1 (the first segment's window [0, 2+5] captures it first),
not to the second segment's start 5; a finding at offset 3 is likewise mapped
to time 1, which is not within the second segment's range [5, 6]. -/
theorem C3_later_segment_counterexample :
    (map_errors_to_segments [findingAtSecondStart] twoSegs).map (fun e => e.time) = [1] ∧
      (map_errors_to_segments [findingAtSecondLast] twoSegs).map (fun e => e.time) = [1] ∧
      twoSegs = [{ start := 0, stop := 1, text := "ab" },
                 { start := 5, stop := 6, text := "cd" }] ∧
      findingAtSecondStart.offset = 2 ∧ findingAtSecondLast.offset = 3 ∧
      "ab".length = 2 ∧ (1 : ℚ) ≠ 5 ∧ ¬((5 : ℚ) ≤ 1 ∧ (1 : ℚ) ≤ 6) := by
  refine ⟨?_, ?_, rfl, rfl, rfl, rfl, by norm_num, by norm_num⟩
  · rw [show map_errors_to_segments [findingAtSecondStart] twoSegs =
      [eventForError findingAtSecondStart
        { start_char := 0, end_char := 2, start_time := 0, end_time := 1, text := "ab" }] from rfl]
    simp [eventForError, findingAtSecondStart]
  · rw [show map_errors_to_segments [findingAtSecondLast] twoSegs =
      [eventForError findingAtSecondLast
        { start_char := 0, end_char := 2, start_time := 0, end_time := 1, text := "ab" }] from rfl]
    simp [eventForError, findingAtSecondLast]
    norm_num

/-- C4 (amended): every breakdown value is bounded by its category maximum
(content_structure in [0,40], grammar in [0,20], clarity in [0,15],
confidence in [0,15], flow in [0,10]), and grammar, clarity, confidence and
flow are integer point values — but content_structure need NOT be an integer:
the mandatory-coverage term `(buckets_found / 3) * 20` is fractional when 1
or 2 buckets are found (see the counterexample). -/
theorem C4_breakdown_bounds (A : Analyzers) (inp : AudioAnalysis) :
    (0 ≤ (calculate_score A inp).breakdown.content_structure ∧
      (calculate_score A inp).breakdown.content_structure ≤ 40) ∧
    (0 ≤ (calculate_score A inp).breakdown.grammar ∧
      (calculate_score A inp).breakdown.grammar ≤ 20 ∧
      ∃ n : ℤ, (calculate_score A inp).breakdown.grammar = n) ∧
    (0 ≤ (calculate_score A inp).breakdown.clarity ∧
      (calculate_score A inp).breakdown.clarity ≤ 15 ∧
      ∃ n : ℤ, (calculate_score A inp).breakdown.clarity = n) ∧
    (0 ≤ (calculate_score A inp).breakdown.confidence ∧
      (calculate_score A inp).breakdown.confidence ≤ 15 ∧
      ∃ n : ℤ, (calculate_score A inp).breakdown.confidence = n) ∧
    (0 ≤ (calculate_score A inp).breakdown.flow ∧
      (calculate_score A inp).breakdown.flow ≤ 10 ∧
      ∃ n : ℤ, (calculate_score A inp).breakdown.flow = n) := by
  by_cases h : inp.word_count = 0
  · rw [C2_zero_words_report A inp h]
    refine ⟨⟨by norm_num, by norm_num⟩, ⟨by norm_num, by norm_num, 0, by norm_num⟩,
      ⟨by norm_num, by norm_num, 0, by norm_num⟩, ⟨by norm_num, by norm_num, 0, by norm_num⟩,
      by norm_num, by norm_num, 0, by norm_num⟩
  · rw [calculate_score_pos A inp h]
    dsimp only
    unfold scoreBreakdownOf
    dsimp only
    refine ⟨⟨contentStructureScore_nonneg A inp.text, contentStructureScore_le A inp.text⟩,
      ⟨?_, ?_, ?_⟩, ⟨?_, ?_, ?_⟩, ⟨?_, ?_, ?_⟩, ?_, ?_, ?_⟩
  
    · have := grammarScore_ge (errorsPer100 A inp.text inp.word_count)
      linarith
    · exact grammarScore_le _
    · rcases grammarScore_mem (errorsPer100 A inp.text inp.word_count) with hg | hg | hg <;>
        rw [hg]
      exacts [⟨20, by norm_num⟩, ⟨15, by norm_num⟩, ⟨10, by norm_num⟩]
    · have := clarityScoreOfRate_ge (fillerRate inp.segments inp.word_count)
      linarith
    · exact clarityScoreOfRate_le _
    · rcases clarityScoreOfRate_mem (fillerRate inp.segments inp.word_count) with hc | hc | hc | hc <;>
        rw [hc]
      exacts [⟨15, by norm_num⟩, ⟨12, by norm_num⟩, ⟨9, by norm_num⟩, ⟨3, by norm_num⟩]
    · have := confidenceScore_ge (analyze_sentiment A inp.text)
      linarith
    · exact confidenceScore_le _
    · rcases confidenceScore_mem (analyze_sentiment A inp.text) with hc | hc | hc | hc <;>
        rw [hc]
      exacts [⟨15, by norm_num⟩, ⟨12, by norm_num⟩, ⟨9, by norm_num⟩, ⟨6, by norm_num⟩]
    · have := flowScore_ge inp.wpm
      linarith
    · exact flowScore_le inp.wpm
    · rcases flowScore_mem inp.wpm with hf | hf | hf <;> rw [hf]
      exacts [⟨10, by norm_num⟩, ⟨6, by norm_num⟩, ⟨2, by norm_num⟩]

/-- C4 counterexample: at a concrete scoring call where exactly one mandatory
bucket is present, the returned content_structure value is 20/3, whose
denominator in lowest terms is 3 — a rational q is an integer exactly when
q.den = 1, so this breakdown value is not an integer point value. -/
theorem C4_integer_counterexample :
    (calculate_score oneBucketAnalyzers oneBucketInput).breakdown.content_structure = 20 / 3 ∧
      ((20 : ℚ) / 3).den = 3 := by
  constructor
  · rw [calculate_score_pos oneBucketAnalyzers oneBucketInput (by decide)]
    dsimp only
    rw [oneBucket_breakdown]
  · norm_num

/-- C5 (confirmed): the salutation component is 5 exactly when one of the
enthusiastic/greeting phrases occurs in the lowered text, 2 exactly when no
enthusiastic phrase but a bare greeting ("hi"/"hello" substring) occurs, and
0 otherwise; and in every scoring call with word_count > 0 the returned
content_structure is that salutation component plus the mandatory, optional
and structural-flow components. -/
theorem C5_salutation_trichotomy :
    (∀ t : String,
      (salutationScore t = 5 ↔ enthusiasticPresent t) ∧
      (salutationScore t = 2 ↔ ¬enthusiasticPresent t ∧ bareGreetingPresent t) ∧
      (salutationScore t = 0 ↔ ¬enthusiasticPresent t ∧ ¬bareGreetingPresent t)) ∧
    ∀ (A : Analyzers) (inp : AudioAnalysis), inp.word_count ≠ 0 →
      (calculate_score A inp).breakdown.content_structure =
        salutationScore inp.text + mandatoryScoreOf A inp.text +
          optionalScoreOf A inp.text + structFlowBonus A inp.text := by
  constructor
  · intro t
    unfold salutationScore
    dsimp only
    split_ifs with h1 h2 <;>
      refine ⟨?_, ?_, ?_⟩ <;>
        simp_all [enthusiasticPresent, bareGreetingPresent, List.any_eq_true]
  · intro A inp h
    rw [calculate_score_pos A inp h]
    rfl

/-- C5 witness: the content_structure decomposition at a concrete call. -/
theorem C5_salutation_trichotomy_witness :
    (calculate_score oneBucketAnalyzers oneBucketInput).breakdown.content_structure =
      salutationScore oneBucketInput.text + mandatoryScoreOf oneBucketAnalyzers oneBucketInput.text +
        optionalScoreOf oneBucketAnalyzers oneBucketInput.text +
        structFlowBonus oneBucketAnalyzers oneBucketInput.text :=
  C5_salutation_trichotomy.2 oneBucketAnalyzers oneBucketInput (by decide)

/-- C6 (confirmed): the grammar band is 20 below 2 errors per 100 words, 15
from 2 up to below 5, and 10 from 5 on; it is monotonically non-increasing in
the error rate; and every scoring call with word_count > 0 assigns
grammar = grammarScore((finding count / word_count) * 100). -/
theorem C6_grammar_monotone_bands :
    (∀ r : ℚ, r < 2 → grammarScore r = 20) ∧
    (∀ r : ℚ, 2 ≤ r → r < 5 → grammarScore r = 15) ∧
    (∀ r : ℚ, 5 ≤ r → grammarScore r = 10) ∧
    (∀ r s : ℚ, r ≤ s → grammarScore s ≤ grammarScore r) ∧
    (∀ (A : Analyzers) (inp : AudioAnalysis), inp.word_count ≠ 0 →
      (calculate_score A inp).breakdown.grammar =
        grammarScore (errorsPer100 A inp.text inp.word_count)) := by
  refine ⟨?_, ?_, ?_, ?_, ?_⟩
  · intro r h
    unfold grammarScore
    rw [if_pos h]
  · intro r h1 h2
    unfold grammarScore
    rw [if_neg (by linarith), if_pos h2]
  · intro r h
    unfold grammarScore
    rw [if_neg (by linarith), if_neg (by linarith)]
  · intro r s h
    unfold grammarScore
    split_ifs <;> linarith
  · intro A inp h
    rw [calculate_score_pos A inp h]
    rfl

/-- C6 witness: band values, the non-increase across a band boundary, and the
grammar assignment at a concrete call. -/
theorem C6_grammar_monotone_bands_witness :
    grammarScore 1 = 20 ∧ grammarScore 3 = 15 ∧ grammarScore 7 = 10 ∧
      grammarScore 7 ≤ grammarScore 1 ∧
      (calculate_score oneBucketAnalyzers oneBucketInput).breakdown.grammar =
        grammarScore (errorsPer100 oneBucketAnalyzers oneBucketInput.text
          oneBucketInput.word_count) :=
  ⟨C6_grammar_monotone_bands.1 1 (by norm_num),
   C6_grammar_monotone_bands.2.1 3 (by norm_num) (by norm_num),
   C6_grammar_monotone_bands.2.2.1 7 (by norm_num),
   C6_grammar_monotone_bands.2.2.2.1 1 7 (by norm_num),
   C6_grammar_monotone_bands.2.2.2.2 oneBucketAnalyzers oneBucketInput (by decide)⟩

/-- C7 (confirmed): with an empty segment list and word_count > 0, the call
total-functionally returns a report whose events contain no grammar-type and
no clarity-type event (the mapper has no ranges and the filler scan visits no
segment), while the grammar score is still assigned from the computed finding
count and the clarity score is still assigned (the filler rate over zero
segments is 0, giving the top band 15). -/
theorem C7_empty_segments (A : Analyzers) (inp : AudioAnalysis)
    (hseg : inp.segments = []) (h : inp.word_count ≠ 0) :
    (∀ e ∈ (calculate_score A inp).events, e.type ≠ "grammar" ∧ e.type ≠ "clarity") ∧
      (calculate_score A inp).breakdown.grammar =
        grammarScore (errorsPer100 A inp.text inp.word_count) ∧
      (calculate_score A inp).breakdown.clarity = 15 := by
  rw [calculate_score_pos A inp h]
  refine ⟨?_, rfl, ?_⟩
  · intro e he
    dsimp only at he
    unfold eventsOf at he
    rw [sortEvents_mem, hseg, map_errors_to_segments_nil, fillerScan_nil] at he
    simp only [List.nil_append, List.append_assoc, List.mem_append] at he
    rcases he with he | he | he | he
    · have := missingContentEvents_type A inp.text e he
      rw [this]
      refine ⟨by decide, by decide⟩
    · have := suggestionEvents_type A inp.text e he
      rw [this]
      refine ⟨by decide, by decide⟩
    · have := paceEvents_type inp e he
      rw [this]
      refine ⟨by decide, by decide⟩
    · have := toneEvents_type A inp e he
      rw [this]
      refine ⟨by decide, by decide⟩
  · dsimp only
    unfold scoreBreakdownOf
    dsimp only
    rw [hseg]
    norm_num [clarityScoreOfRate, fillerRate, fillerScan]

/-- C7 witness: the clarity band at a concrete empty-segment call. -/
theorem C7_empty_segments_witness :
    (calculate_score oneBucketAnalyzers oneBucketInput).breakdown.clarity = 15 :=
  (C7_empty_segments oneBucketAnalyzers oneBucketInput rfl (by decide)).2.2

/-- C8 (confirmed): if the sentence splitter yields no sentences, every
category of the criteria mapping is reported absent; the result is the fixed
all-false mapping, which does not depend on the embedder (`maxSim` does not
occur in it). -/
theorem C8_zero_sentences (A : Analyzers) (t : String)
    (criteria : List (String × List String)) (h : A.sents t = []) :
    check_semantic_presence A t criteria = criteria.map (fun c => (c.1, false)) ∧
      ∀ p ∈ check_semantic_presence A t criteria, p.2 = false := by
  have heq : check_semantic_presence A t criteria = criteria.map (fun c => (c.1, false)) := by
    unfold check_semantic_presence
    rw [h]
    simp
  refine ⟨heq, ?_⟩
  rw [heq]
  intro p hp
  rcases List.mem_map.mp hp with ⟨c, _, hc⟩
  rw [← hc]

/-- C8 witness: the all-false mapping under a concrete sentence-free
analyzer. -/
theorem C8_zero_sentences_witness :
    check_semantic_presence constAnalyzers "t" semantic_buckets =
      semantic_buckets.map (fun c => (c.1, false)) :=
  (C8_zero_sentences constAnalyzers "t" semantic_buckets rfl).1

/-- C9 (amended): in the whole-text filler summary, single-word fillers are
matched by exact case-insensitive token equality, and multi-word phrases are
counted as non-overlapping occurrences of the space-padded phrase
`" phrase "` inside the lowered text — the text itself is NOT space-padded,
so an occurrence at the very start or end of the text is NOT counted (this
is the per-segment scanner's behaviour, not this function's; see the
counterexample).  The function returns the total occurrence count and the
set of distinct filler forms found. -/
theorem C9_filler_summary (A : Analyzers) (text : String)
    (wl pl : List String) (htext : text ≠ "") (hne : ¬(wl = [] ∧ pl = [])) :
    (detect_filler_words A text wl pl).1 =
      (A.tokens (strToLower text)).countP (fun tok => decide (tok ∈ wl)) +
        (pl.map (fun p => strCount (strToLower text) (" " ++ p ++ " "))).sum ∧
      ∀ f : String, f ∈ (detect_filler_words A text wl pl).2 ↔
        ((f ∈ A.tokens (strToLower text) ∧ f ∈ wl) ∨
          (f ∈ pl ∧ 0 < strCount (strToLower text) (" " ++ f ++ " "))) := by
  have hguard : ¬(text = "" ∨ (wl = [] ∧ pl = [])) := by
    intro hc
    rcases hc with hc | hc
    · exact htext hc
    · exact hne hc
  unfold detect_filler_words
  rw [if_neg hguard]
  dsimp only
  rw [singlesFold_eq, phrasesFold_eq]
  constructor
  · dsimp only
    omega
  · intro f
    dsimp only
    simp only [Finset.mem_union, Finset.empty_union, List.mem_toFinset, List.mem_filter,
      decide_eq_true_eq]

/-- C9 witness: the count formula at a concrete call: the phrase "you know"
spanning the whole text contributes `strCount "you know" " you know " = 0`
occurrences. -/
theorem C9_filler_summary_witness :
    (detect_filler_words constAnalyzers "you know" [] ["you know"]).1 =
      (constAnalyzers.tokens (strToLower "you know")).countP
          (fun tok => decide (tok ∈ ([] : List String))) +
        ((["you know"].map (fun p => strCount (strToLower "you know") (" " ++ p ++ " "))).sum) :=
  (C9_filler_summary constAnalyzers "you know" [] ["you know"] (by decide) (by decide)).1

/-- C9 counterexample: for the text "you know" and the filler phrase
"you know", the whole-text summary counts 0 occurrences (the padded pattern
" you know " does not occur in the unpadded text), although searching the
space-padded text — what the claim describes — would find exactly 1.  So an
occurrence at the very start/end of the text is not counted. -/
theorem C9_unpadded_counterexample :
    (detect_filler_words constAnalyzers "you know" [] ["you know"]).1 = 0 ∧
      strCount (" " ++ strToLower "you know" ++ " ") (" " ++ "you know" ++ " ") = 1 := by
  constructor
  · decide
  · decide

/-- C10 (confirmed): overall_score is 0 exactly when word_count is 0; for
word_count > 0 the breakdown sums to at least 21 (flow ≥ 2, grammar ≥ 10,
clarity ≥ 3, confidence ≥ 6, content ≥ 0), so overall_score ≥ 21 — no value
in the open interval (0, 21) is ever returned, and a caller can tell an empty
submission from any scored non-empty one by the score alone. -/
theorem C10_zero_iff_empty (A : Analyzers) (inp : AudioAnalysis) :
    ((calculate_score A inp).overall_score = 0 ↔ inp.word_count = 0) ∧
      (inp.word_count ≠ 0 →
        21 ≤ sumBreakdown (calculate_score A inp).breakdown ∧
          21 ≤ (calculate_score A inp).overall_score) ∧
      ¬(0 < (calculate_score A inp).overall_score ∧
          (calculate_score A inp).overall_score < 21) := by
  by_cases h : inp.word_count = 0
  · rw [C2_zero_words_report A inp h]
    dsimp only
    refine ⟨by simp [h], by intro hc; exact absurd h hc, ?_⟩
    intro hc
    exact absurd hc.1 (by norm_num)
  · have hrep := calculate_score_pos A inp h
    have hsum : 21 ≤ sumBreakdown (scoreBreakdownOf A inp) := by
      unfold sumBreakdown scoreBreakdownOf
      have h1 := contentStructureScore_nonneg A inp.text
      have h2 := grammarScore_ge (errorsPer100 A inp.text inp.word_count)
      have h3 := clarityScoreOfRate_ge (fillerRate inp.segments inp.word_count)
      have h4 := confidenceScore_ge (analyze_sentiment A inp.text)
      have h5 := flowScore_ge inp.wpm
      dsimp only
      linarith
    have hov : 21 ≤ (calculate_score A inp).overall_score := by
      rw [hrep]
      dsimp only
      rw [normalize_total_eq, Int.le_floor]
      push_cast
      exact le_min hsum (by norm_num)
    refine ⟨?_, fun _ => ⟨by rw [hrep]; exact hsum, hov⟩, ?_⟩
    · constructor
      · intro hz
        omega
      · intro hc
        exact absurd hc h
    · intro hc
      omega

/-- C10 witness: the lower bound at a concrete non-empty scoring call. -/
theorem C10_zero_iff_empty_witness :
    21 ≤ (calculate_score oneBucketAnalyzers oneBucketInput).overall_score :=
  ((C10_zero_iff_empty oneBucketAnalyzers oneBucketInput).2.1 (by decide)).2
